import Mathlib

/-!
Shallow embedding of the ScholarSift paper-search script (app.py): the
search / cache / export pipeline.  Network, clock and exception behaviour
are supplied as explicit oracle parameters; filesystem writes are recorded
as explicit effect values.
-/

/-- Python-style string helpers used by the script. -/
def pyIsSpace (c : Char) : Bool :=
  c = ' ' || c = '\t' || c = '\n' || c = '\r' || c = '\x0b' || c = '\x0c'

/-- Python str.strip(): drop whitespace from both ends. -/
def pyStrip (s : String) : String :=
  String.mk (((s.data.dropWhile pyIsSpace).reverse.dropWhile pyIsSpace).reverse)

/-- Python summary.replace of a newline by a space (single-char replace is a map). -/
def pyReplaceNewline (s : String) : String :=
  String.mk (s.data.map (fun c => if c = '\n' then ' ' else c))

/-- Python str.split(sep) for a one-character separator, on the char list. -/
def splitOnChar (sep : Char) : List Char → List (List Char)
  | [] => [[]]
  | c :: cs =>
    let r := splitOnChar sep cs
    if c = sep then [] :: r
    else (c :: r.headD []) :: r.tail

/-- Python s.split(sep)[0]. -/
def pySplitFirst (sep : Char) (s : String) : String :=
  String.mk ((splitOnChar sep s.data).headD [])

/-- Python str.ljust / format spec "<n": pad on the right with spaces. -/
def pyLjust (s : String) (n : Nat) : String :=
  s ++ String.mk (List.replicate (n - s.length) ' ')

/-- A run of n copies of the full-width dash used as a rule line. -/
def hruleDashes (n : Nat) : String :=
  String.mk (List.replicate n '—')

/-- One author object of a parsed feed entry (entry.authors[i].name). -/
structure ArxivAuthor where
  name : String
deriving DecidableEq

/-- One link object of a parsed feed entry (entry.links[i].href). -/
structure ArxivLink where
  href : String
deriving DecidableEq

/-- A parsed feed entry as feedparser presents it to the script. -/
structure Entry where
  title : String
  authors : List ArxivAuthor
  published : String
  summary : String
  links : List ArxivLink
  id : String
deriving DecidableEq

/-- The five-field record the script builds for each paper (dict insertion
order: Title, Authors, Published, PDF Link, Abstract). -/
structure PaperRecord where
  Title : String
  Authors : String
  Published : String
  PDFLink : String
  Abstract : String
deriving DecidableEq

/-- Per-entry extraction in the search loop of search_papers. -/
def mkPaperRecord (e : Entry) : PaperRecord :=
  { Title := e.title
  , Authors := String.intercalate ", " (e.authors.map ArxivAuthor.name)
  , Published := pySplitFirst 'T' e.published
  , PDFLink := if h : 1 < e.links.length then (e.links.get ⟨1, h⟩).href else e.id
  , Abstract := pyStrip (pyReplaceNewline e.summary) }

/-- current_query_info dict written on a successful search. -/
structure QueryInfo where
  query : String
  max_results : Int
  num_found : Nat
  timestamp : String
deriving DecidableEq

/-- The two module-level globals: paper_data_cache and current_query_info
(the latter starts as the empty dict, modelled as none). -/
structure SearchState where
  paper_data_cache : List PaperRecord
  current_query_info : Option QueryInfo
deriving DecidableEq

/-- One outbound HTTP request (url and timeout in seconds). -/
structure HttpRequest where
  url : String
  timeout : Nat
deriving DecidableEq

/-- Oracle for the single requests.get call: error covers any raised
exception and any non-2xx status (raise_for_status); ok carries the
entries feedparser extracts from the response body. -/
inductive HttpResponse where
  | error
  | ok (entries : List Entry)

/-- Everything search_papers produces: the returned message, the second
return value (gr.update(visible=True) on success, None otherwise), the
requests it issued, and the global state after the call. -/
structure SearchOutcome where
  message : String
  reveal : Option Bool
  requests : List HttpRequest
  state : SearchState

/-- The arXiv query URL exactly as the f-string builds it (query text is
interpolated raw) together with the timeout=15 argument. -/
def arxivRequest (query : String) (max_results : Int) : HttpRequest :=
  { url := "http://export.arxiv.org/api/query?search_query=all:" ++ query
      ++ "&start=0&max_results=" ++ toString max_results
  , timeout := 15 }

/-- One numbered block of the human-readable report built in the search loop. -/
def reportBlock (idx : Nat) (p : PaperRecord) : String :=
  "📄 论文 " ++ toString (idx + 1) ++ "\n"
    ++ "标题       : " ++ p.Title ++ "\n"
    ++ "作者       : " ++ p.Authors ++ "\n"
    ++ "发表日期   : " ++ p.Published ++ "\n"
    ++ "PDF 链接   : " ++ p.PDFLink ++ "\n"
    ++ "摘要       : " ++ p.Abstract ++ "\n"
    ++ hruleDashes 60 ++ "\n\n"

/-- The report blocks accumulated over the enumerated papers. -/
def reportBody : Nat → List PaperRecord → String
  | _, [] => ""
  | i, p :: ps => reportBlock i p ++ reportBody (i + 1) ps

/-- search_papers(query, max_results): now is the datetime.now() string,
resp the network oracle, st the prior global state. -/
def search_papers (query : String) (max_results : Int) (now : String)
    (resp : HttpResponse) (st : SearchState) : SearchOutcome :=
  match resp with
  | .error =>
    { message := "❌ 无法连接 arXiv 服务，请检查网络或稍后重试。"
    , reveal := none
    , requests := [arxivRequest query max_results]
    , state := st }
  | .ok [] =>
    { message := "🔍 未找到相关论文。"
    , reveal := none
    , requests := [arxivRequest query max_results]
    , state := st }
  | .ok (e :: es) =>
    let papers := (e :: es).map mkPaperRecord
    { message := "📚 ScholarSift 检索结果（关键词: " ++ query ++ "）\n\n"
        ++ reportBody 0 papers
    , reveal := some true
    , requests := [arxivRequest query max_results]
    , state :=
      { paper_data_cache := papers
      , current_query_info := some
          { query := query
          , max_results := max_results
          , num_found := papers.length
          , timestamp := now } } }

/-- The trailing watermark text appended to exports. -/
def watermark : String :=
  "\n— 导出自 ScholarSift 智能学术助手 (https://yourwebsite.com) —\n"

/-- The ext_map dict lookup: ext_map.get(format) as an Option. -/
def ext_map (format : String) : Option String :=
  if format = "Text" then some "txt"
  else if format = "Word" then some "docx"
  else if format = "PDF" then some "pdf"
  else if format = "Excel" then some "xlsx"
  else none

/-- The output filename: outputs/scholarsift_export.(ext_map.get(format, txt)). -/
def exportFilename (format : String) : String :=
  "outputs/scholarsift_export." ++ (ext_map format).getD "txt"

/-- The dict items of one PaperRecord, in insertion order (p.items()). -/
def recordFields (p : PaperRecord) : List (String × String) :=
  [("Title", p.Title), ("Authors", p.Authors), ("Published", p.Published),
   ("PDF Link", p.PDFLink), ("Abstract", p.Abstract)]

/-- The f.write calls the Text branch makes for paper number i. -/
def textPaperWrites (i : Nat) (p : PaperRecord) : List String :=
  ("论文 " ++ toString (i + 1) ++ "\n")
    :: (recordFields p).map (fun kv => pyLjust kv.1 12 ++ ": " ++ kv.2 ++ "\n")
    ++ [hruleDashes 60 ++ "\n\n"]

/-- The Text-branch writes over the enumerated papers. -/
def textBody : Nat → List PaperRecord → List String
  | _, [] => []
  | i, p :: ps => textPaperWrites i p ++ textBody (i + 1) ps

/-- All f.write calls of the Text branch, in order; the file content is
their concatenation. -/
def textWrites (papers : List PaperRecord) : List String :=
  "ScholarSift 学术论文导出报告\n\n" :: textBody 0 papers ++ [watermark]

/-- One python-docx item: add_heading(text, level) or add_paragraph(text). -/
inductive WordItem where
  | heading (level : Nat) (text : String)
  | para (text : String)
deriving DecidableEq

/-- The docx items the Word branch adds for paper number i. -/
def wordPaperItems (i : Nat) (p : PaperRecord) : List WordItem :=
  [WordItem.heading 1 ("论文 " ++ toString (i + 1) ++ ": " ++ p.Title),
   WordItem.para ("作者       : " ++ p.Authors),
   WordItem.para ("发表日期   : " ++ p.Published),
   WordItem.para ("PDF 链接   : " ++ p.PDFLink),
   WordItem.para ("摘要       : " ++ p.Abstract)]

/-- The Word-branch items over the enumerated papers. -/
def wordBody : Nat → List PaperRecord → List WordItem
  | _, [] => []
  | i, p :: ps => wordPaperItems i p ++ wordBody (i + 1) ps

/-- The whole docx document built by the Word branch. -/
def wordItems (papers : List PaperRecord) : List WordItem :=
  WordItem.heading 0 "ScholarSift 学术论文导出报告"
    :: wordBody 0 papers ++ [WordItem.para watermark]

/-- The texts the PDF branch passes to draw_line for paper number i. -/
def pdfPaperTexts (i : Nat) (p : PaperRecord) : List String :=
  ["论文 " ++ toString (i + 1) ++ ": " ++ p.Title,
   "作者       : " ++ p.Authors,
   "发表日期   : " ++ p.Published,
   "PDF 链接   : " ++ p.PDFLink,
   "摘要       : " ++ p.Abstract,
   hruleDashes 70]

/-- The PDF-branch texts over the enumerated papers. -/
def pdfBody : Nat → List PaperRecord → List String
  | _, [] => []
  | i, p :: ps => pdfPaperTexts i p ++ pdfBody (i + 1) ps

/-- All texts passed to draw_line by the PDF branch, in order. -/
def pdfTexts (papers : List PaperRecord) : List String :=
  "ScholarSift 学术论文导出报告" :: pdfBody 0 papers ++ [watermark]

/-- The lines draw_line obtains from text.split of a newline, before the
[:100] slice. -/
def pdfRawLines (papers : List PaperRecord) : List String :=
  (pdfTexts papers).flatMap (fun t => (splitOnChar '\n' t.data).map String.mk)

/-- The strings actually drawn: each raw line sliced to its first 100
characters (line[:100]). -/
def pdfDrawnLines (papers : List PaperRecord) : List String :=
  (pdfRawLines papers).map (fun s => String.mk (s.data.take 100))

/-- The spreadsheet header: the DataFrame columns, first-seen key order. -/
def excelHeader : List String :=
  ["Title", "Authors", "Published", "PDF Link", "Abstract"]

/-- The spreadsheet rows: one row per paper, columns in key order. -/
def excelRows (papers : List PaperRecord) : List (List String) :=
  papers.map (fun p => [p.Title, p.Authors, p.Published, p.PDFLink, p.Abstract])

/-- A completed document written to disk by one export branch. -/
inductive Doc where
  | text (writes : List String)
  | word (items : List WordItem)
  | pdf (lines : List String)
  | excel (header : List String) (rows : List (List String))
deriving DecidableEq

/-- The JSON log record written to scholarsift_export_log.json. -/
structure LogRecord where
  tool : String
  action : String
  format : String
  count : Nat
  time : String
deriving DecidableEq

/-- Oracle for the try block of export_results.  The try covers the
document construction, the document file write, and the JSON log write, so
an exception can surface at two distinct points: atDoc is an exception
during document construction or the document file write (control jumps to
the except handler before any log write); atLog is an exception during the
log write itself, after the document file was already written.  ok means
the whole block ran without an exception. -/
inductive ExportExc where
  | ok
  | atDoc
  | atLog

/-- Everything export_results does: its return value, whether it created
the outputs directory, the completed document file writes, and the log
file write. -/
structure ExportOutcome where
  result : Option String
  madeOutputsDir : Bool
  fileWrites : List (String × Doc)
  logWrite : Option LogRecord
deriving DecidableEq

/-- export_results(format): papers is the cached list read from the global,
exc the exception oracle for the try block, time the datetime.now()
timestamp used in the log record. -/
def export_results (format : String) (exc : ExportExc) (time : String)
    (papers : List PaperRecord) : ExportOutcome :=
  match papers with
  | [] =>
    { result := none, madeOutputsDir := false, fileWrites := [], logWrite := none }
  | p :: ps =>
    let doc :=
      if format = "Word" then Doc.word (wordItems (p :: ps))
      else if format = "PDF" then Doc.pdf (pdfDrawnLines (p :: ps))
      else if format = "Excel" then Doc.excel excelHeader (excelRows (p :: ps))
      else Doc.text (textWrites (p :: ps))
    match exc with
    | .atDoc =>
      { result := none, madeOutputsDir := true, fileWrites := [], logWrite := none }
    | .atLog =>
      { result := none
      , madeOutputsDir := true
      , fileWrites := [(exportFilename format, doc)]
      , logWrite := none }
    | .ok =>
      { result := some (exportFilename format)
      , madeOutputsDir := true
      , fileWrites := [(exportFilename format, doc)]
      , logWrite := some
          { tool := "ScholarSift", action := "export", format := format
          , count := (p :: ps).length, time := time } }

/-- A concrete feed entry used to witness the theorems below. -/
def demoEntry : Entry :=
  { title := "Demo Title"
  , authors := [{ name := "Ada" }, { name := "Bob" }]
  , published := "2024-01-02T03:04:05Z"
  , summary := " line one\nline two "
  , links := [{ href := "http://arxiv.org/abs/0000.0001" }]
  , id := "http://arxiv.org/abs/0000.0001" }

/-- The PaperRecord extracted from the demo entry. -/
def demoPaper : PaperRecord := mkPaperRecord demoEntry

/-- A concrete prior global state used to witness the theorems below. -/
def demoState : SearchState :=
  { paper_data_cache := [demoPaper], current_query_info := none }

/-! ## Helper lemmas -/

theorem splitOnChar_headD (sep : Char) (l : List Char) :
    (splitOnChar sep l).headD [] = l.takeWhile (fun c => c != sep) := by
  induction l with
  | nil => rfl
  | cons c cs ih =>
    by_cases hc : c = sep
    · subst hc
      simp [splitOnChar]
    · simp only [List.headD_eq_head?] at ih
      simp [splitOnChar, hc, ih]

theorem mem_of_mem_pyStrip {c : Char} {s : String} (h : c ∈ (pyStrip s).data) :
    c ∈ s.data := by
  have h1 : c ∈ (s.data.dropWhile pyIsSpace).reverse.dropWhile pyIsSpace := by
    have h0 : c ∈ ((s.data.dropWhile pyIsSpace).reverse.dropWhile pyIsSpace).reverse := h
    exact List.mem_reverse.mp h0
  have h2 : c ∈ (s.data.dropWhile pyIsSpace).reverse :=
    (List.dropWhile_sublist pyIsSpace).subset h1
  have h3 : c ∈ s.data.dropWhile pyIsSpace := List.mem_reverse.mp h2
  exact (List.dropWhile_sublist pyIsSpace).subset h3

theorem mem_textBody_of_mem {p : PaperRecord} {ps : List PaperRecord} (hp : p ∈ ps)
    {w : String} (hw : ∀ i, w ∈ textPaperWrites i p) :
    ∀ i, w ∈ textBody i ps := by
  induction ps with
  | nil => cases hp
  | cons q qs ih =>
    intro i
    rcases List.mem_cons.mp hp with h | h
    · subst h
      exact List.mem_append_left _ (hw i)
    · exact List.mem_append_right _ (ih h (i + 1))

theorem mem_textWrites_of_mem {p : PaperRecord} {ps : List PaperRecord} (hp : p ∈ ps)
    {w : String} (hw : ∀ i, w ∈ textPaperWrites i p) :
    w ∈ textWrites ps :=
  List.mem_cons_of_mem _ (List.mem_append_left _ (mem_textBody_of_mem hp hw 0))

theorem mem_wordBody_of_mem {p : PaperRecord} {ps : List PaperRecord} (hp : p ∈ ps)
    {w : WordItem} (hw : ∀ i, w ∈ wordPaperItems i p) :
    ∀ i, w ∈ wordBody i ps := by
  induction ps with
  | nil => cases hp
  | cons q qs ih =>
    intro i
    rcases List.mem_cons.mp hp with h | h
    · subst h
      exact List.mem_append_left _ (hw i)
    · exact List.mem_append_right _ (ih h (i + 1))

theorem mem_wordItems_of_mem {p : PaperRecord} {ps : List PaperRecord} (hp : p ∈ ps)
    {w : WordItem} (hw : ∀ i, w ∈ wordPaperItems i p) :
    w ∈ wordItems ps :=
  List.mem_cons_of_mem _ (List.mem_append_left _ (mem_wordBody_of_mem hp hw 0))

theorem heading_mem_wordBody {p : PaperRecord} {ps : List PaperRecord} (hp : p ∈ ps) :
    ∀ j, ∃ i, WordItem.heading 1 ("论文 " ++ toString (i + 1) ++ ": " ++ p.Title)
      ∈ wordBody j ps := by
  induction ps with
  | nil => cases hp
  | cons q qs ih =>
    intro j
    rcases List.mem_cons.mp hp with h | h
    · subst h
      exact ⟨j, List.mem_append_left _ (by simp [wordPaperItems])⟩
    · obtain ⟨i, hi⟩ := ih h (j + 1)
      exact ⟨i, List.mem_append_right _ hi⟩

/-! ## Claims -/

/-- Claim C1: for every successful search whose parsed feed has N > 0
entries, the cache afterwards holds exactly the N PaperRecords extracted
from the feed entries in feed order, and current_query_info.num_found
equals N. -/
theorem search_success_fills_cache (query : String) (n : Int) (now : String)
    (entries : List Entry) (st : SearchState) (hne : entries ≠ []) :
    (search_papers query n now (HttpResponse.ok entries) st).state.paper_data_cache
      = entries.map mkPaperRecord ∧
    (search_papers query n now (HttpResponse.ok entries) st).state.paper_data_cache.length
      = entries.length ∧
    (search_papers query n now (HttpResponse.ok entries) st).state.current_query_info
      = some { query := query, max_results := n, num_found := entries.length
             , timestamp := now } := by
  match entries, hne with
  | e :: es, _ =>
    refine ⟨rfl, by simp [search_papers], ?_⟩
    simp [search_papers]

/-- Witness for C1 at a one-entry feed. -/
theorem search_success_fills_cache_witness :
    [demoEntry] ≠ [] ∧
    ((search_papers "quantum" 3 "2026-10-12 00:00:00"
        (HttpResponse.ok [demoEntry]) demoState).state.paper_data_cache
      = [demoEntry].map mkPaperRecord ∧
    (search_papers "quantum" 3 "2026-10-12 00:00:00"
        (HttpResponse.ok [demoEntry]) demoState).state.paper_data_cache.length
      = [demoEntry].length ∧
    (search_papers "quantum" 3 "2026-10-12 00:00:00"
        (HttpResponse.ok [demoEntry]) demoState).state.current_query_info
      = some { query := "quantum", max_results := 3, num_found := [demoEntry].length
             , timestamp := "2026-10-12 00:00:00" }) :=
  ⟨List.cons_ne_nil _ _,
   search_success_fills_cache "quantum" 3 "2026-10-12 00:00:00" [demoEntry] demoState
     (List.cons_ne_nil _ _)⟩

/-- Claim C2: export_results with an empty cache returns None for every
format value, creates no file, writes no log record, and does not even
create the outputs directory. -/
theorem export_empty_cache_writes_nothing (format : String) (exc : ExportExc)
    (time : String) :
    export_results format exc time [] =
      { result := none, madeOutputsDir := false, fileWrites := []
      , logWrite := none } := rfl

/-- Claim C4: on a network exception or a non-success HTTP status,
search_papers returns the fixed failure message, no result set, and leaves
the cache and query info exactly as they were. -/
theorem search_failure_leaves_state (query : String) (n : Int) (now : String)
    (st : SearchState) :
    search_papers query n now HttpResponse.error st =
      { message := "❌ 无法连接 arXiv 服务，请检查网络或稍后重试。"
      , reveal := none
      , requests := [arxivRequest query n]
      , state := st } := rfl

/-- Claim C5: an entry with at most one link gets the entry id as its PDF
Link; an entry with two or more links gets the second link's href. -/
theorem pdf_link_second_or_id (e : Entry) :
    (e.links.length ≤ 1 → (mkPaperRecord e).PDFLink = e.id) ∧
    (∀ h : 1 < e.links.length,
      (mkPaperRecord e).PDFLink = (e.links.get ⟨1, h⟩).href) := by
  constructor
  · intro hle
    show (if h : 1 < e.links.length then (e.links.get ⟨1, h⟩).href else e.id) = e.id
    rw [dif_neg (by omega)]
  · intro h
    show (if h : 1 < e.links.length then (e.links.get ⟨1, h⟩).href else e.id) = _
    rw [dif_pos h]

/-- Witness for C5 at the one-link demo entry. -/
theorem pdf_link_second_or_id_witness :
    demoEntry.links.length ≤ 1 ∧ (mkPaperRecord demoEntry).PDFLink = demoEntry.id :=
  ⟨by decide, (pdf_link_second_or_id demoEntry).1 (by decide)⟩

/-- Claim C8: every call of search_papers issues exactly one GET whose URI
embeds the raw query text with parameters search_query=all:query, start=0
and max_results=n, with a 15-second timeout. -/
theorem search_issues_one_raw_request (query : String) (n : Int) (now : String)
    (resp : HttpResponse) (st : SearchState) :
    (search_papers query n now resp st).requests =
      [ { url := "http://export.arxiv.org/api/query?search_query=all:" ++ query
            ++ "&start=0&max_results=" ++ toString n
        , timeout := 15 } ] := by
  cases resp with
  | error => rfl
  | ok entries => cases entries <;> rfl

/-- Claim C10: a successful request whose parsed feed has zero entries
yields the fixed not-found message and leaves the cache and query info
untouched. -/
theorem search_empty_feed_leaves_state (query : String) (n : Int) (now : String)
    (st : SearchState) :
    search_papers query n now (HttpResponse.ok []) st =
      { message := "🔍 未找到相关论文。"
      , reveal := none
      , requests := [arxivRequest query n]
      , state := st } := rfl

/-- Claim C9: an exception during document construction or the document
file write makes export_results return None with no completed document
write and no log record; and in every run the log record is produced only
after the document file write completed and a filename is returned (a
log-write exception can still leave the document on disk with no log and a
None result, which is why only this direction holds). -/
theorem export_log_only_after_write (format : String) (time : String)
    (papers : List PaperRecord) (exc : ExportExc) :
    (export_results format ExportExc.atDoc time papers).result = none ∧
    (export_results format ExportExc.atDoc time papers).fileWrites = [] ∧
    (export_results format ExportExc.atDoc time papers).logWrite = none ∧
    ((export_results format exc time papers).logWrite.isSome = true →
      (export_results format exc time papers).fileWrites ≠ [] ∧
      (export_results format exc time papers).result.isSome = true) := by
  refine ⟨?_, ?_, ?_, ?_⟩
  · cases papers <;> rfl
  · cases papers <;> rfl
  · cases papers <;> rfl
  · intro h
    cases papers with
    | nil => simp [export_results] at h
    | cons p ps =>
      cases exc with
      | atDoc => simp [export_results] at h
      | atLog => simp [export_results] at h
      | ok => exact ⟨by simp [export_results], by simp [export_results]⟩

/-- Claim C3: with a non-empty cache, every format other than Word, PDF and
Excel (Text itself included) runs the Text-writing branch and writes the
txt file under the fixed base filename. -/
theorem export_fallback_is_text (format : String) (time : String)
    (p : PaperRecord) (ps : List PaperRecord)
    (h1 : format ≠ "Word") (h2 : format ≠ "PDF") (h3 : format ≠ "Excel") :
    export_results format ExportExc.ok time (p :: ps) =
      { result := some "outputs/scholarsift_export.txt"
      , madeOutputsDir := true
      , fileWrites := [("outputs/scholarsift_export.txt",
          Doc.text (textWrites (p :: ps)))]
      , logWrite := some { tool := "ScholarSift", action := "export"
                         , format := format, count := (p :: ps).length
                         , time := time } } := by
  have hext : exportFilename format = "outputs/scholarsift_export.txt" := by
    by_cases hT : format = "Text"
    · simp [exportFilename, ext_map, hT]
    · simp [exportFilename, ext_map, hT, h1, h2, h3]
  simp [export_results, hext, h1, h2, h3]

/-- Witness for C3 at the literal format value Text. -/
theorem export_fallback_is_text_witness :
    ("Text" ≠ "Word" ∧ "Text" ≠ "PDF" ∧ "Text" ≠ "Excel") ∧
    export_results "Text" ExportExc.ok "t0" (demoPaper :: []) =
      { result := some "outputs/scholarsift_export.txt"
      , madeOutputsDir := true
      , fileWrites := [("outputs/scholarsift_export.txt",
          Doc.text (textWrites (demoPaper :: [])))]
      , logWrite := some { tool := "ScholarSift", action := "export"
                         , format := "Text", count := (demoPaper :: []).length
                         , time := "t0" } } :=
  ⟨⟨by decide, by decide, by decide⟩,
   export_fallback_is_text "Text" "t0" demoPaper []
     (by decide) (by decide) (by decide)⟩

/-- Claim C7: each extracted record normalizes the Abstract to the entry
summary with newlines replaced by spaces and surrounding whitespace
stripped (so no newline survives), and the Published field is the part of
the published timestamp before the first T. -/
theorem abstract_published_normalized (e : Entry) :
    (mkPaperRecord e).Abstract = pyStrip (pyReplaceNewline e.summary) ∧
    (∀ c ∈ (mkPaperRecord e).Abstract.data, c ≠ '\n') ∧
    (mkPaperRecord e).Published.data
      = e.published.data.takeWhile (fun c => c != 'T') := by
  refine ⟨rfl, ?_, ?_⟩
  · intro c hc
    have h1 : c ∈ (pyReplaceNewline e.summary).data := mem_of_mem_pyStrip hc
    have h2 : c ∈ e.summary.data.map (fun c => if c = '\n' then ' ' else c) := h1
    obtain ⟨a, _, ha⟩ := List.mem_map.mp h2
    subst ha
    by_cases hA : a = '\n'
    · simp [hA]
    · simp [hA]
  · show ((splitOnChar 'T' e.published.data).headD []) = _
    exact splitOnChar_headD 'T' e.published.data

/-- Claim C6: every field value of every cached record appears verbatim in
the Text write calls, the Word document items and the Excel rows, while
each PDF line is drawn as exactly its first 100 characters (a prefix, of
length min(len, 100)). -/
theorem export_field_fidelity (papers : List PaperRecord) (p : PaperRecord)
    (hp : p ∈ papers) :
    ((pyLjust "Title" 12 ++ ": " ++ p.Title ++ "\n") ∈ textWrites papers ∧
     (pyLjust "Authors" 12 ++ ": " ++ p.Authors ++ "\n") ∈ textWrites papers ∧
     (pyLjust "Published" 12 ++ ": " ++ p.Published ++ "\n") ∈ textWrites papers ∧
     (pyLjust "PDF Link" 12 ++ ": " ++ p.PDFLink ++ "\n") ∈ textWrites papers ∧
     (pyLjust "Abstract" 12 ++ ": " ++ p.Abstract ++ "\n") ∈ textWrites papers) ∧
    ((∃ i, WordItem.heading 1 ("论文 " ++ toString (i + 1) ++ ": " ++ p.Title)
        ∈ wordItems papers) ∧
     WordItem.para ("作者       : " ++ p.Authors) ∈ wordItems papers ∧
     WordItem.para ("发表日期   : " ++ p.Published) ∈ wordItems papers ∧
     WordItem.para ("PDF 链接   : " ++ p.PDFLink) ∈ wordItems papers ∧
     WordItem.para ("摘要       : " ++ p.Abstract) ∈ wordItems papers) ∧
    [p.Title, p.Authors, p.Published, p.PDFLink, p.Abstract] ∈ excelRows papers ∧
    (pdfDrawnLines papers
        = (pdfRawLines papers).map (fun s => String.mk (s.data.take 100)) ∧
     ∀ l ∈ pdfRawLines papers,
       (String.mk (l.data.take 100)).length = min l.length 100 ∧
       l.data.take 100 <+: l.data) := by
  refine ⟨⟨?_, ?_, ?_, ?_, ?_⟩, ⟨?_, ?_, ?_, ?_, ?_⟩, ?_, rfl, ?_⟩
  · exact mem_textWrites_of_mem hp (fun i => by simp [textPaperWrites, recordFields])
  · exact mem_textWrites_of_mem hp (fun i => by simp [textPaperWrites, recordFields])
  · exact mem_textWrites_of_mem hp (fun i => by simp [textPaperWrites, recordFields])
  · exact mem_textWrites_of_mem hp (fun i => by simp [textPaperWrites, recordFields])
  · exact mem_textWrites_of_mem hp (fun i => by simp [textPaperWrites, recordFields])
  · obtain ⟨i, hi⟩ := heading_mem_wordBody hp 0
    exact ⟨i, List.mem_cons_of_mem _ (List.mem_append_left _ hi)⟩
  · exact mem_wordItems_of_mem hp (fun i => by simp [wordPaperItems])
  · exact mem_wordItems_of_mem hp (fun i => by simp [wordPaperItems])
  · exact mem_wordItems_of_mem hp (fun i => by simp [wordPaperItems])
  · exact mem_wordItems_of_mem hp (fun i => by simp [wordPaperItems])
  · exact List.mem_map_of_mem _ hp
  · intro l _
    constructor
    · show (l.data.take 100).length = min l.length 100
      rw [List.length_take, Nat.min_comm]
      rfl
    · exact ⟨l.data.drop 100, List.take_append_drop 100 l.data⟩

/-- Witness for C6 at a singleton cache. -/
theorem export_field_fidelity_witness :
    demoPaper ∈ [demoPaper] ∧
    (((pyLjust "Title" 12 ++ ": " ++ demoPaper.Title ++ "\n") ∈ textWrites [demoPaper] ∧
      (pyLjust "Authors" 12 ++ ": " ++ demoPaper.Authors ++ "\n") ∈ textWrites [demoPaper] ∧
      (pyLjust "Published" 12 ++ ": " ++ demoPaper.Published ++ "\n") ∈ textWrites [demoPaper] ∧
      (pyLjust "PDF Link" 12 ++ ": " ++ demoPaper.PDFLink ++ "\n") ∈ textWrites [demoPaper] ∧
      (pyLjust "Abstract" 12 ++ ": " ++ demoPaper.Abstract ++ "\n") ∈ textWrites [demoPaper]) ∧
     ((∃ i, WordItem.heading 1 ("论文 " ++ toString (i + 1) ++ ": " ++ demoPaper.Title)
         ∈ wordItems [demoPaper]) ∧
      WordItem.para ("作者       : " ++ demoPaper.Authors) ∈ wordItems [demoPaper] ∧
      WordItem.para ("发表日期   : " ++ demoPaper.Published) ∈ wordItems [demoPaper] ∧
      WordItem.para ("PDF 链接   : " ++ demoPaper.PDFLink) ∈ wordItems [demoPaper] ∧
      WordItem.para ("摘要       : " ++ demoPaper.Abstract) ∈ wordItems [demoPaper]) ∧
     [demoPaper.Title, demoPaper.Authors, demoPaper.Published, demoPaper.PDFLink,
       demoPaper.Abstract] ∈ excelRows [demoPaper] ∧
     (pdfDrawnLines [demoPaper]
         = (pdfRawLines [demoPaper]).map (fun s => String.mk (s.data.take 100)) ∧
      ∀ l ∈ pdfRawLines [demoPaper],
        (String.mk (l.data.take 100)).length = min l.length 100 ∧
        l.data.take 100 <+: l.data)) :=
  ⟨List.mem_singleton.mpr rfl,
   export_field_fidelity [demoPaper] demoPaper (List.mem_singleton.mpr rfl)⟩
